import Mathlib

/-!
Verification development for the zEpid graphics module
(`zepid/graphics/graphics.py`).

The module has two components:
* `effectmeasure_plot` — a forest-plot builder class holding four parallel
  value lists plus label/color configuration, with a `labels` override
  method and a `plot` render method;
* `func_form_plot` — a one-shot functional-form diagnostic pipeline that
  drops missing rows, optionally fits a categorical reference GLM and a
  LOESS curve, fits the functional-form GLM, and renders an overlay chart.

Modelling conventions:
* Python floats are modelled as exact rationals (`ℚ`).  All the inputs the
  claims exercise are short decimal literals, for which exact rational
  arithmetic agrees with IEEE-754 evaluation of the expressions involved.
* Python values flowing through the forest-plot lists are modelled by
  `PyVal` (a float, the float nan, or a string); `isinstance(x, float)`
  is `true` for both finite floats and nan, as in Python.
* Fallible Python operations (`float(s)` coercion, `pd.to_numeric`,
  `dict[key]` lookup, referencing an unassigned local) are modelled in
  `Except String`, carrying the Python exception class in the message.
* Calls delegated to external libraries (statsmodels GLM fitting, LOESS
  smoothing, matplotlib drawing) are modelled as oracle function
  parameters plus an `Event` trace recording what was called with which
  data, in program order.
-/

/-- Round-half-to-even on rationals: the tie-breaking rule used by
Python 3 `round`. -/
def rhe (q : ℚ) : ℤ :=
  let f := Int.floor q
  if q - (f : ℚ) < 1/2 then f
  else if q - (f : ℚ) > 1/2 then f + 1
  else if f % 2 = 0 then f else f + 1

/-- Python `round(q, d)` with `d` decimal places (banker's rounding on the
exact rational value). -/
def pyRound (q : ℚ) (d : ℕ) : ℚ :=
  (rhe (q * 10 ^ d) : ℚ) / 10 ^ d

/-- Left-pad a digit string with zeros to length `n`. -/
def zeroPad (n : ℕ) (s : String) : String :=
  (List.replicate (n - s.length) ('0')).asString ++ s

/-- Smallest number of decimal digits `k ≥ n` (fuel-bounded) such that
`q * 10 ^ k` is an integer. -/
def decLenAux : ℕ → ℚ → ℕ → ℕ
  | 0, _, n => n
  | fuel + 1, q, n => if (q * 10 ^ n).den = 1 then n else decLenAux fuel q (n + 1)

/-- Python `str` of a finite float value: shortest decimal form with at
least one digit after the point (`str(1.0) = "1.0"`, `str(0.9) = "0.9"`).
Faithful for floats whose value is a short decimal, which covers every
value the claims exercise. -/
def fmtFloat (q : ℚ) : String :=
  let sgn := if q < 0 then ("-") else ("")
  let a := if q < 0 then -q else q
  let n := decLenAux 60 a 1
  let scaled := (a * 10 ^ n).num.toNat
  let ip := scaled / 10 ^ n
  let fp := scaled % 10 ^ n
  sgn ++ toString ip ++ ("." ) ++ zeroPad n (toString fp)

/-- Strip leading and trailing whitespace (what Python `float` and
`pd.to_numeric` do to string input). -/
def trimCh (cs : List Char) : List Char :=
  ((cs.dropWhile Char.isWhitespace).reverse.dropWhile Char.isWhitespace).reverse

/-- Numeric value of a digit string. -/
def natVal (cs : List Char) : ℕ :=
  cs.foldl (fun a c => a * 10 + (c.toNat - 48)) 0

/-- Split at the first point character, if any. -/
def breakDot : List Char → List Char × Option (List Char)
  | [] => ([], none)
  | c :: r =>
    if c = ('.') then ([], some r)
    else
      let p := breakDot r
      (c :: p.1, p.2)

/-- Parse a plain decimal literal (optional sign, digits, at most one
point, at least one digit), as accepted by Python `float`/`pd.to_numeric`
on the inputs the claims exercise.  Returns `none` when the text is not a
number (Python raises there). -/
def parseDec (t : List Char) : Option ℚ :=
  let su : ℚ × List Char :=
    match t with
    | '-' :: r => (-1, r)
    | '+' :: r => (1, r)
    | r => (1, r)
  let p := breakDot su.2
  match p.2 with
  | none =>
      if p.1.length > 0 && p.1.all Char.isDigit then some (su.1 * natVal p.1)
      else none
  | some fp =>
      if fp.contains ('.') then none
      else if (p.1.length + fp.length > 0) && p.1.all Char.isDigit &&
          fp.all Char.isDigit then
        some (su.1 * ((natVal p.1 : ℚ) + (natVal fp : ℚ) / 10 ^ fp.length))
      else none

/-- A Python value as stored in the forest-plot lists: a finite float, the
float `nan`, or a string. -/
inductive PyVal where
  | float (q : ℚ)
  | nanV
  | str (s : String)
deriving DecidableEq

/-- Python `str()` of a `PyVal`. -/
def pyStr : PyVal → String
  | .float q => fmtFloat q
  | .nanV => ("nan")
  | .str s => s

/-- Python `isinstance(v, float)` (true for finite floats and for nan). -/
def isFloat : PyVal → Bool
  | .float _ => true
  | .nanV => true
  | .str _ => false

/-- Numeric view of a float-typed `PyVal` (`none` = nan).  Only read on
values that passed the `isinstance(·, float)` check. -/
def numOf : PyVal → Option ℚ
  | .float q => some q
  | .nanV => none
  | .str _ => none

/-- Python `float(s)` on a string: strip whitespace, accept `nan` or a
decimal literal, raise `ValueError` otherwise (`none` models nan). -/
def pyFloatOfString (s : String) : Except String (Option ℚ) :=
  let t := trimCh s.toList
  if t = ("nan").toList then .ok none
  else
    match parseDec t with
    | some q => .ok (some q)
    | none => .error (("ValueError: could not convert string to float: ") ++ s)

/-- `pd.to_numeric` on one value: floats pass through (nan stays nan),
strings are parsed, unparseable strings raise `ValueError`. -/
def toNumeric : PyVal → Except String (Option ℚ)
  | .float q => .ok (some q)
  | .nanV => .ok none
  | .str s =>
      match parseDec (trimCh s.toList) with
      | some q => .ok (some q)
      | none => .error (("ValueError: Unable to parse string ") ++ s)

/-- nan-propagating subtraction on numeric column cells. -/
def optSub : Option ℚ → Option ℚ → Option ℚ
  | some a, some b => some (a - b)
  | _, _ => none

/-- `Series.max()` with nan skipped (pandas semantics); `none` when no
numeric value is present. -/
def nanmax (l : List (Option ℚ)) : Option ℚ :=
  l.foldl (fun acc v =>
    match acc, v with
    | none, w => w
    | some a, none => some a
    | some a, some b => some (max a b)) none

/-- `Series.min()` with nan skipped (pandas semantics). -/
def nanmin (l : List (Option ℚ)) : Option ℚ :=
  l.foldl (fun acc v =>
    match acc, v with
    | none, w => w
    | some a, none => some a
    | some a, some b => some (min a b)) none

/-- State of an `effectmeasure_plot` object: the four input columns, the
derived numeric columns, and the label/color configuration fields set in
`__init__` (lines 96-117 of `graphics.py`).  The reference `center` is the
Python int `1` by default, modelled as the float `1`. -/
structure effectmeasure_plot where
  study : List PyVal
  OR : List PyVal
  LCL : List PyVal
  UCL : List PyVal
  OR2 : List (Option ℚ)
  LCL_dif : List (Option ℚ)
  UCL_dif : List (Option ℚ)
  em : PyVal
  ci : PyVal
  scale : PyVal
  center : PyVal
  errc : String
  shape : String
  pc : String
  linec : String
deriving DecidableEq

/-- `effectmeasure_plot.__init__` (lines 77-117).  Column assignments with
mismatched lengths raise; `OR2 = df['OR'].astype(str).astype(float)`
raises `ValueError` on a non-numeric string such as `' '`; the
`LCL_dif`/`UCL_dif` columns are direct float differences when every entry
of the two lists involved is a float, and `pd.to_numeric` differences
otherwise. -/
def effectmeasure_plot.init (label effect_measure lcl ucl : List PyVal) :
    Except String effectmeasure_plot :=
  if effect_measure.length ≠ label.length ∨ lcl.length ≠ label.length ∨
      ucl.length ≠ label.length then
    .error ("ValueError: Length of values does not match length of index")
  else
    match effect_measure.mapM (fun v => pyFloatOfString (pyStr v)) with
    | .error e => .error e
    | .ok or2 =>
      match
        (if lcl.all isFloat && effect_measure.all isFloat then
          .ok (List.zipWith (fun a b => optSub (numOf a) (numOf b)) effect_measure lcl)
        else
          match effect_measure.mapM toNumeric with
          | .error e => .error e
          | .ok xs =>
            match lcl.mapM toNumeric with
            | .error e => .error e
            | .ok ys => .ok (List.zipWith optSub xs ys) :
          Except String (List (Option ℚ))) with
      | .error e => .error e
      | .ok lcl_dif =>
        match
          (if ucl.all isFloat && effect_measure.all isFloat then
            .ok (List.zipWith (fun a b => optSub (numOf a) (numOf b)) ucl effect_measure)
          else
            match ucl.mapM toNumeric with
            | .error e => .error e
            | .ok xs =>
              match effect_measure.mapM toNumeric with
              | .error e => .error e
              | .ok ys => .ok (List.zipWith optSub xs ys) :
            Except String (List (Option ℚ))) with
        | .error e => .error e
        | .ok ucl_dif =>
          .ok { study := label, OR := effect_measure, LCL := lcl, UCL := ucl,
                OR2 := or2, LCL_dif := lcl_dif, UCL_dif := ucl_dif,
                em := .str ("OR"), ci := .str ("95% CI"), scale := .str ("log"),
                center := .float 1, errc := ("dimgrey"), shape := ("d"),
                pc := ("k"), linec := ("gray") }

/-- The `scale` kwarg override inside `labels` (line 138-139). -/
def applyScale (s : effectmeasure_plot) (kwargs : List (String × PyVal)) :
    effectmeasure_plot :=
  match kwargs.lookup ("scale") with
  | some v => { s with scale := v }
  | none => s

/-- The `center` kwarg override inside `labels` (line 140-141). -/
def applyCenter (s : effectmeasure_plot) (kwargs : List (String × PyVal)) :
    effectmeasure_plot :=
  match kwargs.lookup ("center") with
  | some v => { s with center := v }
  | none => s

/-- `effectmeasure_plot.labels(**kwargs)` (lines 119-141).  The guard for
the confidence-interval override tests the key `'ci'` but then reads
`kwargs['conf_int']`, which raises `KeyError` when only `'ci'` was
passed. -/
def effectmeasure_plot.labels (s : effectmeasure_plot)
    (kwargs : List (String × PyVal)) : Except String effectmeasure_plot :=
  let s1 :=
    match kwargs.lookup ("effectmeasure") with
    | some v => { s with em := v }
    | none => s
  match kwargs.lookup ("ci") with
  | some _ =>
      match kwargs.lookup ("conf_int") with
      | some w => .ok (applyCenter (applyScale ({ s1 with ci := w }) kwargs) kwargs)
      | none => .error ("KeyError: conf_int")
  | none => .ok (applyCenter (applyScale s1 kwargs) kwargs)

/-- `effectmeasure_plot.colors(**kwargs)` (lines 143-164): the color- and
shape-override method (reads only keys that are present, so it never
raises). -/
def effectmeasure_plot.colors (s : effectmeasure_plot)
    (kwargs : List (String × PyVal)) : effectmeasure_plot :=
  let s1 :=
    match kwargs.lookup ("errorbarcolor") with
    | some (.str v) => { s with errc := v }
    | _ => s
  let s2 :=
    match kwargs.lookup ("pointshape") with
    | some (.str v) => { s1 with shape := v }
    | _ => s1
  let s3 :=
    match kwargs.lookup ("linecolor") with
    | some (.str v) => { s2 with linec := v }
    | _ => s2
  match kwargs.lookup ("pointcolor") with
  | some (.str v) => { s3 with pc := v }
  | _ => s3

/-- Python `round(v, d)` on a float-typed value (nan rounds to nan). -/
def pyRoundVal (v : PyVal) (d : ℕ) : PyVal :=
  match v with
  | .float q => .float (pyRound q d)
  | w => w

/-- One table row of the render step (lines 181-190): on a row whose
coerced estimate is not nan, all-float rows get the rounded estimate and a
`"(lower, upper)"` text with both bounds rounded; rows with any
string-typed entry keep the raw values unrounded; nan rows render as two
blank cells. -/
def tvalRow (orV : PyVal) (or2 : Option ℚ) (lclV uclV : PyVal) (decimal : ℕ) :
    List PyVal :=
  match or2 with
  | some q =>
      if isFloat orV && isFloat lclV && isFloat uclV then
        [.float (pyRound q decimal),
         .str (("(") ++ pyStr (pyRoundVal lclV decimal) ++ (", ") ++
               pyStr (pyRoundVal uclV decimal) ++ (")"))]
      else
        [orV, .str (("(") ++ pyStr lclV ++ (", ") ++ pyStr uclV ++ (")"))]
  | none => [.str (" "), .str (" ")]

/-- The x-axis maximum tier cascade (lines 191-196): three independent
`if` statements over `pd.to_numeric(UCL).max()`, each assigning `maxi`;
`none` models the variable being left unassigned (conditions involving a
nan maximum are false, as in pandas). -/
def xAxisMaxi (uclN : List (Option ℚ)) : Option ℚ :=
  let m := nanmax uclN
  let maxi : Option ℚ := none
  let maxi :=
    match m with
    | some v => if v < 1 then some (pyRound (v + 1/20) 2) else maxi
    | none => maxi
  let maxi :=
    match m with
    | some v => if v < 9 ∧ 1 ≤ v then some (pyRound (v + 1) 0) else maxi
    | none => maxi
  let maxi :=
    match m with
    | some v => if 9 < v then some (pyRound (v + 10) 0) else maxi
    | none => maxi
  maxi

/-- The x-axis minimum tier cascade (lines 197-200) over
`pd.to_numeric(LCL).min()`. -/
def xAxisMini (lclN : List (Option ℚ)) : Option ℚ :=
  let m := nanmin lclN
  let mini : Option ℚ := none
  let mini :=
    match m with
    | some v => if 0 < v then some (pyRound (v - 1/10) 1) else mini
    | none => mini
  let mini :=
    match m with
    | some v => if v < 0 then some (pyRound (v - 1/20) 2) else mini
    | none => mini
  mini

/-- The renderable content produced by `effectmeasure_plot.plot`: table
cells, y ticks, axis bounds, table headers `[em, ci]`, y tick labels,
reference center and scale choice. -/
structure PlotOut where
  tval : List (List PyVal)
  ytick : List ℕ
  mini : ℚ
  maxi : ℚ
  colLabels : List PyVal
  yticklabels : List PyVal
  center : PyVal
  logScale : Bool
deriving DecidableEq

/-- `effectmeasure_plot.plot(t_adjuster, decimal, size)` (lines 166-226).
The table loop runs first; then the tier cascades compute `maxi`/`mini`
(possibly leaving them unassigned); `plot.set_xlim([mini, maxi])` at line
216 references `mini` then `maxi` and raises `UnboundLocalError` on
whichever is first unassigned. -/
def effectmeasure_plot.plot (s : effectmeasure_plot) (_t_adjuster : ℚ)
    (decimal : ℕ) (_size : ℚ) : Except String PlotOut :=
  let n := s.study.length
  let tval := (List.range n).map (fun i =>
    tvalRow (s.OR.getD i (.str (""))) (s.OR2.getD i none)
      (s.LCL.getD i (.str (""))) (s.UCL.getD i (.str (""))) decimal)
  let ytick := List.range n
  match s.UCL.mapM toNumeric with
  | .error e => .error e
  | .ok uclN =>
    match s.LCL.mapM toNumeric with
    | .error e => .error e
    | .ok lclN =>
      match xAxisMini lclN, xAxisMaxi uclN with
      | none, _ =>
          .error ("UnboundLocalError: local variable mini referenced before assignment")
      | some _, none =>
          .error ("UnboundLocalError: local variable maxi referenced before assignment")
      | some mini, some maxi =>
          .ok { tval := tval, ytick := ytick, mini := mini, maxi := maxi,
                colLabels := [s.em, s.ci], yticklabels := s.study,
                center := s.center, logScale := s.scale = .str ("log") }

/-!
### The functional-form plotter (`func_form_plot`, lines 230-329)

The dataset is a labelled table of numeric-or-missing cells (`none`
models pandas nan).  GLM fitting and LOESS smoothing are delegated to
statsmodels, modelled as oracle parameters; matplotlib drawing is
recorded as trace events.
-/

/-- A pandas DataFrame with numeric-or-missing cells (the functional-form
pipeline only touches numeric columns). -/
structure DF where
  cols : List String
  rows : List (List (Option ℚ))
deriving DecidableEq

/-- Index of a named column (`cols.length`, i.e. out of range, when the
name is absent; the claims only exercise present columns). -/
def colIdx (d : DF) (name : String) : ℕ :=
  (d.cols.findIdx? (fun c => c == name)).getD d.cols.length

/-- The values of a named column. -/
def DF.col (d : DF) (name : String) : List (Option ℚ) :=
  d.rows.map (fun r => r.getD (colIdx d name) none)

/-- `df.dropna()` with no subset: keep exactly the rows that have no
missing value in any column (lines 271-272 call it on the whole frame). -/
def dropnaAll (d : DF) : DF :=
  { cols := d.cols, rows := d.rows.filter (fun r => r.all Option.isSome) }

/-- Strict order on cells used for sorting: numbers by value, nan last
(pandas `sort_values` places nan at the end). -/
def optLtB : Option ℚ → Option ℚ → Bool
  | some a, some b => decide (a < b)
  | some _, none => true
  | none, _ => false

/-- Lexicographic "comes no later than" on sort-key tuples. -/
def keysLe : List (Option ℚ) → List (Option ℚ) → Bool
  | [], _ => true
  | _ :: _, [] => true
  | a :: as, b :: bs => if a = b then keysLe as bs else optLtB a b

/-- Sort key of one row for `sort_values(by=keys)`. -/
def keyList (d : DF) (keys : List String) (r : List (Option ℚ)) : List (Option ℚ) :=
  keys.map (fun k => r.getD (colIdx d k) none)

/-- `df.sort_values(by=keys)` modelled as a stable sort by the key tuple
(pandas keeps ties in a deterministic order; the rows the claims compare
have distinct keys or are already sorted). -/
def sortValues (d : DF) (keys : List String) : DF :=
  { cols := d.cols,
    rows := List.insertionSort
      (fun r1 r2 => keysLe (keyList d keys r1) (keyList d keys r2) = true) d.rows }

/-- `rf = df.copy().dropna().sort_values(by=[var, outcome]).reset_index()`
(line 272): drop every row containing a missing value in any column, sort
by predictor then outcome, and materialise the original row positions as
a leading `index` column. -/
def rfOf (df : DF) (var outcome : String) : DF :=
  let keep := df.rows.enum.filter (fun p => p.2.all Option.isSome)
  let sorted := List.insertionSort
    (fun p q => keysLe (keyList df [var, outcome] p.2)
      (keyList df [var, outcome] q.2) = true) keep
  { cols := ("index") :: df.cols,
    rows := sorted.map (fun p => some ((p.1 : ℚ)) :: p.2) }

/-- `pd.concat([d, newcol], axis=1)`: append one named column (the
prediction frames statsmodels returns are row-aligned with `d`). -/
def addCol (d : DF) (name : String) (vals : List (Option ℚ)) : DF :=
  { cols := d.cols ++ [name],
    rows := List.zipWith (fun r v => r ++ [v]) d.rows vals }

/-- Strict lexicographic order on key pairs for group keys. -/
def pairLtB (a b : Option ℚ × Option ℚ) : Bool :=
  if a.1 = b.1 then optLtB a.2 b.2 else optLtB a.1 b.1

/-- `d.groupby(by=[k1, k2]).count().reset_index()` as used at lines 290
and 297: one row per distinct `(k1, k2)` key pair in ascending key order,
whose count column holds the group size (every column of `d` is complete
after `dropna`, so all counts equal the group size). -/
def groupbyCount (d : DF) (k1 k2 : String) : DF :=
  let keys := d.rows.map (fun r =>
    (r.getD (colIdx d k1) none, r.getD (colIdx d k2) none))
  let uks := List.insertionSort
    (fun a b => (pairLtB a b || decide (a = b)) = true) keys.dedup
  { cols := [k1, k2, ("count")],
    rows := uks.map (fun p => [p.1, p.2, some ((keys.count p : ℕ) : ℚ)]) }

/-- Value view of a cell for arithmetic done on group keys (the keys come
from complete rows, so `none` never actually occurs there). -/
def optV (v : Option ℚ) : ℚ := v.getD 0

/-- The scatter point sizes of lines 314 and 316:
`[100*(n/max(pf[var])) for n in pf[var]]` — computed from the predictor
values themselves. -/
def sizesOf (xs : List (Option ℚ)) : List ℚ :=
  xs.map (fun n => 100 * (optV n / optV (nanmax xs)))

/-- What a fitted GLM's `get_prediction(rf).summary_frame()` provides to
the plot: the mean prediction and its confidence band, one entry per row
of `rf`. -/
structure GLMOut where
  mean : List (Option ℚ)
  ciUpper : List (Option ℚ)
  ciLower : List (Option ℚ)

/-- The categorical-encoding reference formula `outcome ~ C(var)` of line
285. -/
def cFormula (outcome var : String) : String :=
  outcome ++ ("~ C(") ++ var ++ (")")

/-- `dj`: `rf` with the reference model's predicted mean appended, sorted
by the predictor (lines 285-288). -/
def djOf (glm : String → DF → GLMOut) (rf : DF) (outcome var : String) : DF :=
  sortValues (addCol rf ("mean") ((glm (cFormula outcome var) rf).mean)) [var]

/-- One delegated call or console effect of `func_form_plot`, in program
order.  `glmFit` records each statsmodels `smf.glm(...).fit()` with its
formula and family; `lowessCall` records the LOESS invocation with its
endogenous and exogenous data; drawing calls record the data handed to
matplotlib. -/
inductive Event where
  | printed (s : String)
  | printedSummary
  | glmFit (formula : String) (fam : String)
  | lowessCall (endog exog : List (Option ℚ)) (frac : ℚ)
  | scatterPts (xs ys : List (Option ℚ)) (sizes : List ℚ)
  | fillBetween (xs upper lower : List (Option ℚ))
  | plotLine (xs ys : List (Option ℚ)) (style : String)
  | showFig
deriving DecidableEq

/-- The two console lines of lines 273-274 (the second is
`print(int(len(df)-len(rf)), ' observations were dropped ...')`, whose
default separator yields two spaces before `observations`). -/
def dropEvents (df : DF) (var outcome : String) : List Event :=
  [.printed ("Warning: missing observations of model variables are dropped"),
   .printed (toString (df.rows.length - (rfOf df var outcome).rows.length) ++
     ("  observations were dropped from the functional form assessment"))]

/-- The `ValueError` message of line 303. -/
def unsupportedMsg : String :=
  ("ValueError: Functional form assessment only supports binary or continuous outcomes currently")

/-- Everything `func_form_plot` does after the two prints: the optional
LOESS/points block with its `outcome_type` dispatch (lines 283-303, where
an unsupported `outcome_type` raises only when the block runs), the
functional-form fit (line 304), the optional summary print, and the
drawing calls (lines 312-329). -/
def funcTail (glm : String → DF → GLMOut)
    (lowessO : List (Option ℚ) → List (Option ℚ) → ℚ → List (Option ℚ) × List (Option ℚ))
    (rf : DF) (outcome var : String) (f_form : Option String)
    (outcome_type : String) (link_dist : Option String) (loess_value : ℚ)
    (model_results loess points : Bool) : List Event × Option String :=
  let ffF := f_form.getD var
  let fam := link_dist.getD ("Binomial(logit)")
  let step2 : Except String
      (List Event × Option DF × (List (Option ℚ) × List (Option ℚ))) :=
    if loess || points then
      if outcome_type == ("binary") then
        let dj := djOf glm rf outcome var
        .ok ([Event.glmFit (cFormula outcome var) fam] ++
          (if loess then
            [Event.lowessCall (dj.col ("mean")) (dj.col var) loess_value]
          else []),
          (if points then some (groupbyCount dj var ("mean")) else none),
          (if loess then lowessO (dj.col ("mean")) (dj.col var) loess_value
           else ([], [])))
      else if outcome_type == ("continuous") then
        .ok ((if loess then
            [Event.lowessCall (rf.col outcome) (rf.col var) loess_value]
          else []),
          (if points then some (groupbyCount rf var outcome) else none),
          (if loess then lowessO (rf.col outcome) (rf.col var) loess_value
           else ([], [])))
      else .error unsupportedMsg
    else .ok ([], none, ([], []))
  match step2 with
  | .error e => ([], some e)
  | .ok (evOvl, pfO, lw) =>
      let ffg := glm (outcome ++ ("~ ") ++ ffF) rf
      let ffd := sortValues
        (addCol (addCol (addCol rf ("mean") ffg.mean) ("mean_ci_upper") ffg.ciUpper)
          ("mean_ci_lower") ffg.ciLower) [var]
      let evPts :=
        if points then
          let pf := pfO.getD { cols := [], rows := [] }
          if outcome_type == ("continuous") then
            [Event.scatterPts (pf.col var) (pf.col outcome) (sizesOf (pf.col var))]
          else
            [Event.scatterPts (pf.col var) (pf.col ("mean")) (sizesOf (pf.col var))]
        else []
      (evOvl ++ [Event.glmFit (outcome ++ ("~ ") ++ ffF) fam] ++
        (if model_results then [Event.printedSummary] else []) ++ evPts ++
        [Event.fillBetween (ffd.col var) (ffd.col ("mean_ci_upper"))
          (ffd.col ("mean_ci_lower")),
         Event.plotLine (ffd.col var) (ffd.col ("mean")) ("-")] ++
        (if loess then [Event.plotLine lw.1 lw.2 ("--")] else []) ++
        [Event.showFig], none)

/-- `func_form_plot(df, outcome, var, f_form, outcome_type, link_dist,
ylims, loess_value, legend, model_results, loess, points)`: drop and
report missing rows, then run the rest of the pipeline.  Result: the
trace of delegated calls/effects in program order, and the uncaught
exception if one is raised (`ylims` and `legend` only restyle the figure
and are not traced). -/
def func_form_plot (glm : String → DF → GLMOut)
    (lowessO : List (Option ℚ) → List (Option ℚ) → ℚ → List (Option ℚ) × List (Option ℚ))
    (df : DF) (outcome var : String) (f_form : Option String)
    (outcome_type : String) (link_dist : Option String) (loess_value : ℚ)
    (_legend model_results loess points : Bool) : List Event × Option String :=
  let tail := funcTail glm lowessO (rfOf df var outcome) outcome var f_form
    outcome_type link_dist loess_value model_results loess points
  (dropEvents df var outcome ++ tail.1, tail.2)

/-!
### Spec-side comparison definition and shared fixtures
-/

/-- Modelled from the spec (refinement comparison only, not from the
code): "Drop rows with any missing value among the referenced columns"
— the drop the specification describes, which keeps rows whose missing
values all lie in columns other than the outcome and predictor.  Compared
against the code's `dropna()` over the whole frame. -/
def specDropReferenced (d : DF) (refCols : List String) : DF :=
  { cols := d.cols,
    rows := d.rows.filter (fun r =>
      refCols.all (fun c => (r.getD (colIdx d c) none).isSome)) }

/-- A trivial GLM oracle used to instantiate oracle parameters in closed
statements (its value never matters for the facts stated). -/
def glmDummy : String → DF → GLMOut :=
  fun _ _ => { mean := [], ciUpper := [], ciLower := [] }

/-- A trivial LOESS oracle for closed statements. -/
def loDummy : List (Option ℚ) → List (Option ℚ) → ℚ →
    List (Option ℚ) × List (Option ℚ) :=
  fun _ _ _ => ([], [])

/-- A concrete forest-plot state with the construction-time defaults
(used to instantiate universally quantified statements). -/
def sampleState : effectmeasure_plot :=
  { study := [], OR := [], LCL := [], UCL := [], OR2 := [], LCL_dif := [],
    UCL_dif := [], em := .str ("OR"), ci := .str ("95% CI"),
    scale := .str ("log"), center := .float 1, errc := ("dimgrey"),
    shape := ("d"), pc := ("k"), linec := ("gray") }

/-!
### Helper lemmas
-/

/-- `applyScale` never touches the `ci` field. -/
theorem applyScale_ci (s : effectmeasure_plot) (kwargs : List (String × PyVal)) :
    (applyScale s kwargs).ci = s.ci := by
  unfold applyScale
  cases kwargs.lookup ("scale") <;> rfl

/-- `applyCenter` never touches the `ci` field. -/
theorem applyCenter_ci (s : effectmeasure_plot) (kwargs : List (String × PyVal)) :
    (applyCenter s kwargs).ci = s.ci := by
  unfold applyCenter
  cases kwargs.lookup ("center") <;> rfl

/-!
### Claims about the labels override (C1, C10)
-/

/-- Claim C1: a `labels` call that passes the `conf_int` keyword but not
the `ci` keyword succeeds and leaves the stored confidence-interval
header unchanged — the override has no effect — and the prior/default
value set by construction is `'95% CI'`. -/
theorem labels_conf_int_without_ci_is_noop :
    (∀ (s : effectmeasure_plot) (kwargs : List (String × PyVal)) (v : PyVal),
      kwargs.lookup ("ci") = none → kwargs.lookup ("conf_int") = some v →
      ∃ s2, effectmeasure_plot.labels s kwargs = .ok s2 ∧ s2.ci = s.ci) ∧
    (∀ label effect_measure lcl ucl s0,
      effectmeasure_plot.init label effect_measure lcl ucl = .ok s0 →
      s0.ci = .str ("95% CI")) := by
  constructor
  · intro s kwargs v h _
    unfold effectmeasure_plot.labels
    rw [h]
    refine ⟨_, rfl, ?_⟩
    rw [applyCenter_ci, applyScale_ci]
    cases kwargs.lookup ("effectmeasure") <;> rfl
  · intro label effect_measure lcl ucl s0 h
    unfold effectmeasure_plot.init at h
    split at h
    · exact Except.noConfusion h
    · split at h
      · exact Except.noConfusion h
      · split at h
        · exact Except.noConfusion h
        · split at h
          · exact Except.noConfusion h
          · injection h with h2
            subst h2
            rfl

/-- Closed instance of `labels_conf_int_without_ci_is_noop`: passing only
`conf_int := '90% CI'` to a default-configured plot leaves the header at
`'95% CI'`. -/
theorem labels_conf_int_without_ci_is_noop_witness :
    ∃ s2, effectmeasure_plot.labels sampleState
        [(("conf_int"), PyVal.str ("90% CI"))] = .ok s2 ∧
      s2.ci = PyVal.str ("95% CI") := by
  obtain ⟨s2, h1, h2⟩ := labels_conf_int_without_ci_is_noop.1 sampleState
    [(("conf_int"), PyVal.str ("90% CI"))] (PyVal.str ("90% CI")) rfl rfl
  exact ⟨s2, h1, h2.trans rfl⟩

/-- Claim C10: passing `ci` without `conf_int` raises `KeyError`; passing
both sets the stored header to the `conf_int` value, which is the only
way that field actually changes. -/
theorem labels_ci_key_mismatch :
    (∀ (s : effectmeasure_plot) (kwargs : List (String × PyVal)) (v : PyVal),
      kwargs.lookup ("ci") = some v → kwargs.lookup ("conf_int") = none →
      effectmeasure_plot.labels s kwargs = .error ("KeyError: conf_int")) ∧
    (∀ (s : effectmeasure_plot) (kwargs : List (String × PyVal)) (v w : PyVal),
      kwargs.lookup ("ci") = some v → kwargs.lookup ("conf_int") = some w →
      ∃ s2, effectmeasure_plot.labels s kwargs = .ok s2 ∧ s2.ci = w) := by
  constructor
  · intro s kwargs v hci hconf
    unfold effectmeasure_plot.labels
    rw [hci, hconf]
  · intro s kwargs v w hci hconf
    unfold effectmeasure_plot.labels
    rw [hci, hconf]
    refine ⟨_, rfl, ?_⟩
    rw [applyCenter_ci, applyScale_ci]

/-- Closed instance of `labels_ci_key_mismatch` at concrete kwargs
dictionaries. -/
theorem labels_ci_key_mismatch_witness :
    effectmeasure_plot.labels sampleState [(("ci"), PyVal.str ("90% CI"))] =
      .error ("KeyError: conf_int") ∧
    ∃ s2, effectmeasure_plot.labels sampleState
        [(("ci"), PyVal.str ("ignored")), (("conf_int"), PyVal.str ("90% CI"))] =
        .ok s2 ∧ s2.ci = PyVal.str ("90% CI") := by
  exact ⟨labels_ci_key_mismatch.1 sampleState [(("ci"), PyVal.str ("90% CI"))]
      (PyVal.str ("90% CI")) rfl rfl,
    labels_ci_key_mismatch.2 sampleState
      [(("ci"), PyVal.str ("ignored")), (("conf_int"), PyVal.str ("90% CI"))]
      (PyVal.str ("ignored")) (PyVal.str ("90% CI")) rfl rfl⟩

/-!
### Claims about axis bounds and table cells (C4, C5, C6, C7)
-/

/-- Claim C4: the x-axis bounds are a pure function of the maximum upper
bound and minimum lower bound with the tiered padding — `max < 1` gives
`round(max+0.05, 2)`, `1 ≤ max < 9` gives `round(max+1)`, `max > 9` gives
`round(max+10)`, `min > 0` gives `round(min-0.1, 1)`, `min < 0` gives
`round(min-0.05, 2)` — and in particular `upper=[0.8]` yields
`maxi = 0.85`, `upper=[5]` yields `maxi = 6`, `upper=[15]` yields
`maxi = 25`. -/
theorem axis_bounds_tiers :
    (∀ (uclN : List (Option ℚ)) (m : ℚ), nanmax uclN = some m →
      (m < 1 → xAxisMaxi uclN = some (pyRound (m + 1/20) 2)) ∧
      (1 ≤ m → m < 9 → xAxisMaxi uclN = some (pyRound (m + 1) 0)) ∧
      (9 < m → xAxisMaxi uclN = some (pyRound (m + 10) 0))) ∧
    (∀ (lclN : List (Option ℚ)) (m : ℚ), nanmin lclN = some m →
      (0 < m → xAxisMini lclN = some (pyRound (m - 1/10) 1)) ∧
      (m < 0 → xAxisMini lclN = some (pyRound (m - 1/20) 2))) ∧
    xAxisMaxi [some (4/5)] = some (17/20) ∧
    xAxisMaxi [some 5] = some 6 ∧
    xAxisMaxi [some 15] = some 25 ∧
    xAxisMini [some (1/2)] = some (2/5) := by
  refine ⟨?_, ?_, ?_, ?_, ?_, ?_⟩
  · intro uclN m h
    simp only [xAxisMaxi, h]
    refine ⟨?_, ?_, ?_⟩
    · intro h1
      rw [if_neg (show ¬ 9 < m by linarith),
        if_neg (show ¬ (m < 9 ∧ 1 ≤ m) by rintro ⟨h2, h3⟩; linarith),
        if_pos h1]
    · intro h1 h2
      rw [if_neg (show ¬ 9 < m by linarith), if_pos ⟨h2, h1⟩]
    · intro h1
      rw [if_pos h1]
  · intro lclN m h
    simp only [xAxisMini, h]
    refine ⟨?_, ?_⟩
    · intro h1
      rw [if_neg (show ¬ m < 0 by linarith), if_pos h1]
    · intro h1
      rw [if_pos h1]
  · with_unfolding_all decide
  · with_unfolding_all decide
  · with_unfolding_all decide
  · with_unfolding_all decide

/-- Closed instance of `axis_bounds_tiers`: evaluating each tier at a
concrete bound list. -/
theorem axis_bounds_tiers_witness :
    xAxisMaxi [some (4/5)] = some (pyRound ((4:ℚ)/5 + 1/20) 2) ∧
    xAxisMaxi [some 5] = some (pyRound ((5:ℚ) + 1) 0) ∧
    xAxisMaxi [some 15] = some (pyRound ((15:ℚ) + 10) 0) ∧
    xAxisMini [some (1/2)] = some (pyRound ((1:ℚ)/2 - 1/10) 1) := by
  refine ⟨(axis_bounds_tiers.1 [some (4/5)] (4/5) (by with_unfolding_all decide)).1
      (by norm_num),
    (axis_bounds_tiers.1 [some 5] 5 (by with_unfolding_all decide)).2.1
      (by norm_num) (by norm_num),
    (axis_bounds_tiers.1 [some 15] 15 (by with_unfolding_all decide)).2.2
      (by norm_num),
    (axis_bounds_tiers.2.1 [some (1/2)] (1/2) (by with_unfolding_all decide)).1
      (by norm_num)⟩

/-- Claim C5 (documenting the code bug): with a maximum upper bound of
exactly 9 no tier of the cascade fires, `maxi` is never assigned, and the
render raises `UnboundLocalError` instead of treating 9 as the middle
tier (`maxi = 10`); the same gap exists at a minimum lower bound of
exactly 0. -/
theorem axis_tier_gap_unassigned :
    xAxisMaxi [some 9] = none ∧ xAxisMini [some 0] = none ∧
    ((effectmeasure_plot.init [.str ("a")] [.float 1] [.float (1/2)] [.float 9]).bind
      (fun s => effectmeasure_plot.plot s (1/100) 3 3)) =
      .error ("UnboundLocalError: local variable maxi referenced before assignment") := by
  exact ⟨by with_unfolding_all decide, by with_unfolding_all decide,
    by with_unfolding_all rfl⟩

/-- Claim C6 (documenting the code bug): constructing a row whose four
fields are all blank strings (the docstring's own recipe for a visual
gap) raises `ValueError` at the `astype(float)` coercion of `OR2`, so the
blank row never reaches the render step. -/
theorem blank_row_construction_raises :
    effectmeasure_plot.init [.str (" ")] [.str (" ")] [.str (" ")] [.str (" ")] =
      .error ("ValueError: could not convert string to float:  ") := by
  rfl

/-- Claim C7: an all-float row renders as the estimate rounded to the
requested precision plus a `"(lower, upper)"` text with both bounds
rounded; a string-typed estimate is preserved verbatim.  In particular
`estimate=1.234, lower=0.9, upper=1.6, decimal=2` renders as
`["1.23", "(0.9, 1.6)"]` and `estimate="1.30"` renders as `"1.30"`. -/
theorem table_cell_rounding :
    (∀ (e e2 l u : ℚ) (d : ℕ),
      tvalRow (.float e) (some e2) (.float l) (.float u) d =
        [.float (pyRound e2 d),
         .str (("(") ++ fmtFloat (pyRound l d) ++ (", ") ++
           fmtFloat (pyRound u d) ++ (")"))]) ∧
    (∀ (t : String) (e2 : ℚ) (l u : PyVal) (d : ℕ),
      tvalRow (.str t) (some e2) l u d =
        [.str t, .str (("(") ++ pyStr l ++ (", ") ++ pyStr u ++ (")"))]) ∧
    ((effectmeasure_plot.init [.str ("lab")] [.float (1234/1000)] [.float (9/10)]
        [.float (16/10)]).bind
      (fun s => effectmeasure_plot.plot s (1/100) 2 3)).map
        (fun o => o.tval.map (fun row : List PyVal => row.map pyStr)) =
      .ok [[("1.23"), ("(0.9, 1.6)")]] ∧
    ((effectmeasure_plot.init [.str ("lab")] [.str ("1.30")] [.float (101/100)]
        [.float (3/2)]).bind
      (fun s => effectmeasure_plot.plot s (1/100) 2 3)).map
        (fun o => o.tval.map (fun row : List PyVal => row.map pyStr)) =
      .ok [[("1.30"), ("(1.01, 1.5)")]] := by
  refine ⟨?_, ?_, ?_, ?_⟩
  · intro e e2 l u d
    rfl
  · intro t e2 l u d
    rfl
  · with_unfolding_all rfl
  · with_unfolding_all rfl

/-!
### Claims about the functional-form pipeline (C2, C3, C8, C9)
-/

/-- Filtering on the payload commutes with numbering the list. -/
theorem length_filter_enumFrom {α : Type} (P : α → Bool) :
    ∀ (l : List α) (n : ℕ),
      ((List.enumFrom n l).filter (fun p => P p.2)).length = (l.filter P).length := by
  intro l
  induction l with
  | nil => intro n; rfl
  | cons a t ih =>
      intro n
      simp only [List.enumFrom, List.filter]
      cases hpa : P a <;> simp [hpa, ih]

/-- `rf` has exactly as many rows as the full-frame `dropna` keeps
(sorting and re-indexing do not change the row count). -/
theorem rfOf_rows_length (df : DF) (var outcome : String) :
    (rfOf df var outcome).rows.length = (dropnaAll df).rows.length := by
  unfold rfOf dropnaAll
  simp only [List.length_map, List.length_insertionSort]
  exact length_filter_enumFrom (fun r => r.all Option.isSome) df.rows 0

/-- The linear formula of line 304 never coincides with the
categorical-encoding formula of line 285 (their lengths differ by 3). -/
theorem formula_ne (outcome var : String) :
    outcome ++ ("~ ") ++ var ≠ cFormula outcome var := by
  intro h
  have h2 := congrArg String.length h
  simp only [cFormula, String.length_append] at h2
  have l1 : String.length ("~ ") = 2 := rfl
  have l2 : String.length ("~ C(") = 4 := rfl
  have l3 : String.length (")") = 1 := rfl
  rw [l1, l2, l3] at h2
  omega

/-- The dataset exhibiting the drop-semantics divergence: its only row is
complete in the referenced columns `Y`, `X` but missing in the
unreferenced column `Z`. -/
def dfC3 : DF :=
  { cols := [("Y"), ("X"), ("Z")], rows := [[some 1, some 2, none]] }

/-- Claim C3 counterexample: on `dfC3` the code prints that 1 observation
was dropped and keeps no row, although dropping only rows with a missing
value among the referenced columns would drop nothing (spec-claimed count
0, row retained). -/
theorem dropna_referenced_only_counterexample :
    Event.printed (("1  observations were dropped from the functional form assessment")) ∈
      (func_form_plot glmDummy loDummy dfC3 ("Y") ("X") none ("binary") none (1/2)
        false false false false).1 ∧
    (specDropReferenced dfC3 [("Y"), ("X")]).rows.length = 1 ∧
    dfC3.rows.length - (specDropReferenced dfC3 [("Y"), ("X")]).rows.length = 0 ∧
    (rfOf dfC3 ("X") ("Y")).rows = [] := by
  exact ⟨by with_unfolding_all decide, by with_unfolding_all rfl,
    by with_unfolding_all rfl, by with_unfolding_all rfl⟩

/-- Claim C3 (amended): the plotter drops every row containing a missing
value in any column of the dataset (`dropna()` over the whole frame), and
the printed dropped-row count equals `len(original) - len(after that
full-frame drop)`, for every invocation. -/
theorem dropped_count_matches_full_dropna :
    ∀ (glm : String → DF → GLMOut)
      (lowessO : List (Option ℚ) → List (Option ℚ) → ℚ →
        List (Option ℚ) × List (Option ℚ))
      (df : DF) (outcome var : String) (f_form : Option String)
      (outcome_type : String) (link_dist : Option String) (loess_value : ℚ)
      (legend model_results loess points : Bool),
      Event.printed (toString (df.rows.length - (dropnaAll df).rows.length) ++
          ("  observations were dropped from the functional form assessment")) ∈
        (func_form_plot glm lowessO df outcome var f_form outcome_type link_dist
          loess_value legend model_results loess points).1 := by
  intro glm lowessO df outcome var f_form outcome_type link_dist loess_value
    legend model_results loess points
  have h := rfOf_rows_length df var outcome
  simp only [func_form_plot, dropEvents, ← h]
  simp [List.mem_append]

/-- Claim C2 counterexample: invoking the plotter with
`outcome_type='count'` and `loess=False, points=False` raises no error at
all — the functional-form GLM fit happens (`Y~ X` is fitted) — so the
claimed unconditional fail-fast does not hold. -/
theorem outcome_type_count_no_error_without_overlays :
    (func_form_plot glmDummy loDummy dfC3 ("Y") ("X") none ("count") none (1/2)
      false false false false).2 = none ∧
    Event.glmFit (("Y~ X")) (("Binomial(logit)")) ∈
      (func_form_plot glmDummy loDummy dfC3 ("Y") ("X") none ("count") none (1/2)
        false false false false).1 := by
  exact ⟨by with_unfolding_all rfl, by with_unfolding_all decide⟩

/-- Claim C2 (amended): with an `outcome_type` other than `'binary'` or
`'continuous'`, a `ValueError` is raised before any model-fitting call
when (and only when) the LOESS overlay or the point overlay is requested;
with `loess=False` and `points=False` no error is raised and the
functional-form model fit proceeds. -/
theorem outcome_type_check_only_with_overlays :
    ∀ (glm : String → DF → GLMOut)
      (lowessO : List (Option ℚ) → List (Option ℚ) → ℚ →
        List (Option ℚ) × List (Option ℚ))
      (df : DF) (outcome var : String) (f_form : Option String)
      (outcome_type : String) (link_dist : Option String) (loess_value : ℚ)
      (legend model_results loess points : Bool),
      outcome_type ≠ ("binary") → outcome_type ≠ ("continuous") →
      ((loess || points) = true →
        func_form_plot glm lowessO df outcome var f_form outcome_type link_dist
            loess_value legend model_results loess points =
          (dropEvents df var outcome, some unsupportedMsg)) ∧
      ((loess || points) = false →
        (func_form_plot glm lowessO df outcome var f_form outcome_type link_dist
            loess_value legend model_results loess points).2 = none ∧
        Event.glmFit (outcome ++ ("~ ") ++ f_form.getD var)
            (link_dist.getD ("Binomial(logit)")) ∈
          (func_form_plot glm lowessO df outcome var f_form outcome_type link_dist
            loess_value legend model_results loess points).1) := by
  intro glm lowessO df outcome var f_form outcome_type link_dist loess_value
    legend model_results loess points hb hc
  have hb' : (outcome_type == ("binary")) = false := by
    simp [hb]
  have hc' : (outcome_type == ("continuous")) = false := by
    simp [hc]
  constructor
  · intro h
    simp only [func_form_plot, funcTail, h, hb', hc', if_true, if_false,
      Bool.false_eq_true, List.append_nil]
  · intro h
    have hl : loess = false := by
      cases loess
      · rfl
      · simp at h
    have hp : points = false := by
      cases points
      · rfl
      · simp [hl] at h
    subst hl
    subst hp
    constructor
    · rfl
    · simp only [func_form_plot, funcTail]
      cases model_results <;> simp [List.mem_append]

/-- Closed instance of `outcome_type_check_only_with_overlays` at
`outcome_type='count'`, in both modes. -/
theorem outcome_type_check_only_with_overlays_witness :
    func_form_plot glmDummy loDummy dfC3 ("Y") ("X") none ("count") none (1/2)
        false false true false =
      (dropEvents dfC3 ("X") ("Y"), some unsupportedMsg) ∧
    (func_form_plot glmDummy loDummy dfC3 ("Y") ("X") none ("count") none (1/2)
        false false false false).2 = none := by
  refine ⟨(outcome_type_check_only_with_overlays glmDummy loDummy dfC3 ("Y") ("X")
      none ("count") none (1/2) false false true false (by decide) (by decide)).1 rfl,
    ((outcome_type_check_only_with_overlays glmDummy loDummy dfC3 ("Y") ("X")
      none ("count") none (1/2) false false false false (by decide) (by decide)).2
      rfl).1⟩

/-- Claim C8: with the LOESS overlay requested, `outcome_type='continuous'`
passes the outcome column of `rf` (the raw outcome values of the cleaned,
sorted data) as the LOESS endogenous input and never fits the
categorical-encoding reference model, whereas `outcome_type='binary'`
first fits the categorical reference model `outcome ~ C(var)` and passes
its predicted-mean column (carried by `dj`) as the LOESS endogenous
input.  Stated for every dataset and every behaviour of the delegated
GLM/LOESS routines. -/
theorem loess_input_by_outcome_type :
    ∀ (glm : String → DF → GLMOut)
      (lowessO : List (Option ℚ) → List (Option ℚ) → ℚ →
        List (Option ℚ) × List (Option ℚ))
      (df : DF) (outcome var : String) (link_dist : Option String)
      (loess_value : ℚ) (legend model_results : Bool),
      (Event.lowessCall ((rfOf df var outcome).col outcome)
          ((rfOf df var outcome).col var) loess_value ∈
        (func_form_plot glm lowessO df outcome var none ("continuous") link_dist
          loess_value legend model_results true false).1 ∧
       Event.glmFit (cFormula outcome var) (link_dist.getD ("Binomial(logit)")) ∉
        (func_form_plot glm lowessO df outcome var none ("continuous") link_dist
          loess_value legend model_results true false).1) ∧
      (Event.lowessCall ((djOf glm (rfOf df var outcome) outcome var).col ("mean"))
          ((djOf glm (rfOf df var outcome) outcome var).col var) loess_value ∈
        (func_form_plot glm lowessO df outcome var none ("binary") link_dist
          loess_value legend model_results true false).1 ∧
       Event.glmFit (cFormula outcome var) (link_dist.getD ("Binomial(logit)")) ∈
        (func_form_plot glm lowessO df outcome var none ("binary") link_dist
          loess_value legend model_results true false).1) := by
  intro glm lowessO df outcome var link_dist loess_value legend model_results
  have hne := formula_ne outcome var
  refine ⟨⟨?_, ?_⟩, ?_, ?_⟩
  · cases model_results <;>
      simp [func_form_plot, funcTail, dropEvents, List.mem_append]
  · intro hmem
    cases model_results <;>
      simp [func_form_plot, funcTail, dropEvents, List.mem_append,
        Ne.symm hne] at hmem
  · cases model_results <;>
      simp [func_form_plot, funcTail, dropEvents, List.mem_append]
  · cases model_results <;>
      simp [func_form_plot, funcTail, dropEvents, List.mem_append]

/-- The dataset exhibiting the point-size bug: five observations at
predictor value 1 and one observation at predictor value 2, all with
outcome 0. -/
def dfC9 : DF :=
  { cols := [("Y"), ("X")],
    rows := [[some 0, some 1], [some 0, some 1], [some 0, some 1],
      [some 0, some 1], [some 0, some 1], [some 0, some 2]] }

/-- Claim C9 (documenting the code bug): on `dfC9` the scatter overlay is
drawn with sizes `[50, 100]`, computed from the predictor values
`pf[var] = [1, 2]` (`100*(n/max(pf[var]))`), while the observation counts
of the two groups are `[5, 1]`; no constant of proportionality relates
the sizes to the counts, contradicting the documented "size is relative
to the number of observations". -/
theorem scatter_sizes_from_predictor_values :
    Event.scatterPts [some 1, some 2] [some 0, some 0] [50, 100] ∈
      (func_form_plot glmDummy loDummy dfC9 ("Y") ("X") none ("continuous") none
        (1/2) false false false true).1 ∧
    (groupbyCount (rfOf dfC9 ("X") ("Y")) ("X") ("Y")).col ("count") =
      [some 5, some 1] ∧
    ¬ ∃ c : ℚ, (50 : ℚ) = c * 5 ∧ (100 : ℚ) = c * 1 := by
  refine ⟨by with_unfolding_all decide, by with_unfolding_all decide, ?_⟩
  rintro ⟨c, h1, h2⟩
  have hc : c = 10 := by linarith
  subst hc
  norm_num at h2
